import Mathlib

/-!
Verification of the `ChineseSwitchParser` repository's switch-adapter layer.

The Python sources under `src/switch_models/` are shallowly embedded below:
pure helpers become Lean functions on `String` / `List Char` / `Nat` / `ℚ`,
stateful code (the `requests` session, cookie jar, MAC-vendor cache) becomes
explicit state passing, and the network is an oracle argument (a function from
endpoint to the response the switch would give, `none` standing for a raised
exception).  Machine floats that the code only doubles and caps (the MAC
lookup delay) are modelled exactly by rationals, since doubling and `min`
are exact on the values involved.
-/

namespace ChineseSwitchParser

/-! ### Python string primitives

`lowerChar`/`upperChar` model `str.lower`/`str.upper` on the ASCII range, the
only range relevant to the markers, cookie values and hex strings handled by
this code; they act character-wise, as Python does on such input. -/

def lowerChar (c : Char) : Char :=
  if 'A' ≤ c ∧ c ≤ 'Z' then Char.ofNat (c.toNat + 32) else c

def upperChar (c : Char) : Char :=
  if 'a' ≤ c ∧ c ≤ 'z' then Char.ofNat (c.toNat - 32) else c

/-- `str.lower` on the characters of a string. -/
def pyLower (s : List Char) : List Char := s.map lowerChar

/-- `str.lower` packaged on `String`. -/
def lowerStr (s : String) : String := ⟨pyLower s.data⟩

/-- `str.upper` packaged on `String`. -/
def upperStr (s : String) : String := ⟨s.data.map upperChar⟩

/-- The whitespace characters stripped by Python's `str.strip()`. -/
def isPySpace (c : Char) : Bool :=
  c = ' ' ∨ c = '\t' ∨ c = '\n' ∨ c = '\r' ∨ c = '\x0b' ∨ c = '\x0c'

/-- Python's `str.strip()`: drop whitespace from both ends. -/
def pyStrip (s : String) : String :=
  ⟨((s.data.dropWhile isPySpace).reverse.dropWhile isPySpace).reverse⟩

/-- Python's `str.isdigit()` on the ASCII range: nonempty and all digits. -/
def pyIsDigit (s : String) : Bool :=
  !s.data.isEmpty && s.data.all Char.isDigit

/-! ### MAC-vendor lookup (`BaseSwitchModel._resolve_mac_vendor`, base.py 80-134)

State of the base adapter relevant to the lookup: the `mac_vendor_cache`
dict (an association list with Python's "last write wins" read through
`List.lookup` on the most recent binding first), `last_mac_lookup_time`,
and `mac_lookup_delay`.  `time.time()` readings are passed in as the `now`
argument; the outcome of the single `requests.get` is passed in as an
`HttpOutcome` (`exc` standing for a raised exception). -/

structure MacState where
  cache : List (String × String)
  lastLookupTime : ℚ
  delay : ℚ
  deriving DecidableEq, Repr

/-- Outcome of the `requests.get` call inside `_resolve_mac_vendor`. -/
inductive HttpOutcome where
  | status (code : Nat) (body : String)
  | exc
  deriving DecidableEq, Repr

/-- A hexadecimal character, as matched by the regex `[^0-9A-Fa-f]`'s complement. -/
def isHexChar (c : Char) : Bool :=
  ('0' ≤ c && c ≤ '9') || ('A' ≤ c && c ≤ 'F') || ('a' ≤ c && c ≤ 'f')

/-- `re.sub(r'[^0-9A-Fa-f]', '', mac_address.upper())` (base.py line 83). -/
def cleanMac (mac : String) : String :=
  ⟨(mac.data.map upperChar).filter isHexChar⟩

/-- `clean_mac[:6]` (base.py line 84): the OUI used as the cache key. -/
def macOui (mac : String) : String :=
  ⟨(cleanMac mac).data.take 6⟩

/-- `BaseSwitchModel._resolve_mac_vendor` (base.py lines 80-134).
Returns the vendor string, the new adapter state, and whether an HTTP
request to the MACVendors API was issued.  The `time.sleep` branch does not
change adapter state and is therefore invisible here; `now` is the
`time.time()` value stored into `last_mac_lookup_time` on line 100. -/
def resolve_mac_vendor (st : MacState) (mac : String) (now : ℚ)
    (out : HttpOutcome) : String × MacState × Bool :=
  let oui := macOui mac
  if oui.length ≠ 6 then ("Invalid MAC", st, false)
  else
    match st.cache.lookup oui with
    | some v => (v, st, false)
    | none =>
      let st := { st with lastLookupTime := now }
      match out with
      | HttpOutcome.status code body =>
        if code = 200 then
          let vendor := pyStrip body
          if vendor ≠ "" && !(vendor.startsWith "Not Found") then
            (vendor, { st with cache := (oui, vendor) :: st.cache }, true)
          else
            ("Unknown Vendor", { st with cache := (oui, "Unknown Vendor") :: st.cache }, true)
        else if code = 404 then
          ("Unregistered OUI", { st with cache := (oui, "Unregistered OUI") :: st.cache }, true)
        else if code = 429 then
          ("Rate Limited",
            { st with cache := (oui, "Rate Limited") :: st.cache,
                      delay := min (st.delay * 2) 10 }, true)
        else
          ("API Error", { st with cache := (oui, "API Error") :: st.cache }, true)
      | HttpOutcome.exc =>
        ("Lookup Failed", { st with cache := (oui, "Lookup Failed") :: st.cache }, true)

/-- A sequence of `_resolve_mac_vendor` calls, threading the adapter state. -/
def runMacLookups (st : MacState) : List (String × ℚ × HttpOutcome) → MacState
  | [] => st
  | (mac, now, out) :: rest =>
      runMacLookups (resolve_mac_vendor st mac now out).2.1 rest

/-! ### Lemmas about `resolve_mac_vendor` -/

/-- On a cache miss with a six-character OUI, the lookup stores the returned
string at the front of the cache, stamps the lookup time, and issues exactly
one HTTP request; only the delay may additionally change. -/
theorem resolve_mac_vendor_miss (st : MacState) (mac : String) (now : ℚ)
    (out : HttpOutcome)
    (hlen : (macOui mac).length = 6)
    (hmiss : st.cache.lookup (macOui mac) = none) :
    ∃ v d, resolve_mac_vendor st mac now out =
      (v, ⟨(macOui mac, v) :: st.cache, now, d⟩, true) := by
  unfold resolve_mac_vendor
  rw [if_neg (by omega : ¬ (macOui mac).length ≠ 6)]
  simp only [hmiss]
  cases out with
  | status code body =>
    dsimp only
    by_cases h200 : code = 200
    · rw [if_pos h200]
      by_cases hv : (decide (pyStrip body ≠ "") && !(pyStrip body).startsWith "Not Found") = true
      · rw [if_pos hv]; exact ⟨pyStrip body, st.delay, rfl⟩
      · rw [if_neg hv]; exact ⟨"Unknown Vendor", st.delay, rfl⟩
    · rw [if_neg h200]
      by_cases h404 : code = 404
      · rw [if_pos h404]; exact ⟨"Unregistered OUI", st.delay, rfl⟩
      · rw [if_neg h404]
        by_cases h429 : code = 429
        · rw [if_pos h429]; exact ⟨"Rate Limited", min (st.delay * 2) 10, rfl⟩
        · rw [if_neg h429]; exact ⟨"API Error", st.delay, rfl⟩
  | exc => exact ⟨"Lookup Failed", st.delay, by dsimp only⟩

/-- On a cache hit with a six-character OUI, the lookup returns the cached
string, leaves the whole state unchanged, and issues no HTTP request. -/
theorem resolve_mac_vendor_hit (st : MacState) (mac : String) (now : ℚ)
    (out : HttpOutcome) (v : String)
    (hlen : (macOui mac).length = 6)
    (hhit : st.cache.lookup (macOui mac) = some v) :
    resolve_mac_vendor st mac now out = (v, st, false) := by
  unfold resolve_mac_vendor
  simp [hlen, hhit]

/-- C6: the MAC-vendor lookup uses a dict cache keyed by the OUI.  If a
first call performs a lookup (valid MAC, cache miss), it stores the string
it returns under the OUI, and a second call whose argument normalizes to
the same OUI returns exactly that stored string, issues no HTTP request,
and leaves the state (in particular the cache) unchanged. -/
theorem mac_vendor_cache_second_call (st : MacState) (mac₁ mac₂ : String)
    (now₁ now₂ : ℚ) (out₁ out₂ : HttpOutcome)
    (hsame : macOui mac₁ = macOui mac₂)
    (hlen : (macOui mac₁).length = 6)
    (hmiss : st.cache.lookup (macOui mac₁) = none) :
    (resolve_mac_vendor st mac₁ now₁ out₁).2.1.cache.lookup (macOui mac₁) =
      some (resolve_mac_vendor st mac₁ now₁ out₁).1 ∧
    resolve_mac_vendor (resolve_mac_vendor st mac₁ now₁ out₁).2.1 mac₂ now₂ out₂ =
      ((resolve_mac_vendor st mac₁ now₁ out₁).1,
       (resolve_mac_vendor st mac₁ now₁ out₁).2.1, false) := by
  obtain ⟨v, d, hv⟩ := resolve_mac_vendor_miss st mac₁ now₁ out₁ hlen hmiss
  rw [hv]
  have hstore : ((v, (⟨(macOui mac₁, v) :: st.cache, now₁, d⟩ : MacState), true)).2.1.cache.lookup
      (macOui mac₁) = some v := by simp
  refine ⟨hstore, ?_⟩
  exact resolve_mac_vendor_hit _ mac₂ now₂ out₂ v (hsame ▸ hlen) (by simp [← hsame])

/-- C6 witness: two concrete calls whose MACs normalize to the OUI AABBCC. -/
theorem mac_vendor_cache_second_call_witness :
    macOui "AA-BB-CC-00-11-22" = macOui "aa:bb:cc:99:88:77" ∧
    (macOui "AA-BB-CC-00-11-22").length = 6 ∧
    (MacState.mk [] 0 1).cache.lookup (macOui "AA-BB-CC-00-11-22") = none ∧
    ((resolve_mac_vendor ⟨[], 0, 1⟩ "AA-BB-CC-00-11-22" 5
        (HttpOutcome.status 200 " MegaCorp Inc ")).2.1.cache.lookup
        (macOui "AA-BB-CC-00-11-22") =
      some (resolve_mac_vendor ⟨[], 0, 1⟩ "AA-BB-CC-00-11-22" 5
        (HttpOutcome.status 200 " MegaCorp Inc ")).1 ∧
     resolve_mac_vendor
        (resolve_mac_vendor ⟨[], 0, 1⟩ "AA-BB-CC-00-11-22" 5
          (HttpOutcome.status 200 " MegaCorp Inc ")).2.1
        "aa:bb:cc:99:88:77" 7 (HttpOutcome.status 404 "") =
      ((resolve_mac_vendor ⟨[], 0, 1⟩ "AA-BB-CC-00-11-22" 5
          (HttpOutcome.status 200 " MegaCorp Inc ")).1,
       (resolve_mac_vendor ⟨[], 0, 1⟩ "AA-BB-CC-00-11-22" 5
          (HttpOutcome.status 200 " MegaCorp Inc ")).2.1, false)) :=
  ⟨by decide, by decide, by decide,
   mac_vendor_cache_second_call ⟨[], 0, 1⟩ _ _ 5 7 _ _
     (by decide) (by decide) (by decide)⟩

/-- C7: when the normalized MAC has fewer than six hex characters,
`_resolve_mac_vendor` answers "Invalid MAC" without contacting the API and
without touching the cache, the timestamp, or the delay. -/
theorem mac_vendor_invalid_short (st : MacState) (mac : String) (now : ℚ)
    (out : HttpOutcome) (hshort : (cleanMac mac).length < 6) :
    resolve_mac_vendor st mac now out = ("Invalid MAC", st, false) := by
  have hlen : (macOui mac).length ≠ 6 := by
    have h : (macOui mac).length = min 6 (cleanMac mac).length := by
      show ((cleanMac mac).data.take 6).length = min 6 (cleanMac mac).data.length
      exact List.length_take 6 _
    omega
  unfold resolve_mac_vendor
  rw [if_pos hlen]

/-- C7 witness: the string "12:34" normalizes to only four hex characters. -/
theorem mac_vendor_invalid_short_witness :
    (cleanMac "12:34").length < 6 ∧
    resolve_mac_vendor ⟨[("AABBCC", "MegaCorp")], 3, 2⟩ "12:34" 9 HttpOutcome.exc =
      ("Invalid MAC", ⟨[("AABBCC", "MegaCorp")], 3, 2⟩, false) :=
  ⟨by decide,
   mac_vendor_invalid_short ⟨[("AABBCC", "MegaCorp")], 3, 2⟩ "12:34" 9
     HttpOutcome.exc (by decide)⟩

/-- A single `_resolve_mac_vendor` call either leaves the delay unchanged or
(exactly on an HTTP 429 outcome after a fresh lookup) sets it to
`min (2 * delay) 10`. -/
theorem resolve_mac_vendor_delay_cases (st : MacState) (mac : String) (now : ℚ)
    (out : HttpOutcome) :
    (resolve_mac_vendor st mac now out).2.1.delay = st.delay ∨
    ((∃ body, out = HttpOutcome.status 429 body) ∧
      (resolve_mac_vendor st mac now out).2.1.delay = min (st.delay * 2) 10) := by
  unfold resolve_mac_vendor
  by_cases hlen : (macOui mac).length ≠ 6
  · rw [if_pos hlen]; exact Or.inl rfl
  · rw [if_neg hlen]
    cases hmem : st.cache.lookup (macOui mac) with
    | some v => exact Or.inl rfl
    | none =>
      cases out with
      | status code body =>
        dsimp only
        by_cases h200 : code = 200
        · rw [if_pos h200]
          by_cases hv : (decide (pyStrip body ≠ "") && !(pyStrip body).startsWith "Not Found") = true
          · rw [if_pos hv]; exact Or.inl rfl
          · rw [if_neg hv]; exact Or.inl rfl
        · rw [if_neg h200]
          by_cases h404 : code = 404
          · rw [if_pos h404]; exact Or.inl rfl
          · rw [if_neg h404]
            by_cases h429 : code = 429
            · rw [if_pos h429]
              exact Or.inr ⟨⟨body, by rw [h429]⟩, rfl⟩
            · rw [if_neg h429]; exact Or.inl rfl
      | exc => exact Or.inl rfl

/-- One call keeps the delay inside `[d, 10]` whenever it starts in `[0, 10]`. -/
theorem resolve_mac_vendor_delay_step (st : MacState) (mac : String) (now : ℚ)
    (out : HttpOutcome) (h0 : 0 ≤ st.delay) (h10 : st.delay ≤ 10) :
    st.delay ≤ (resolve_mac_vendor st mac now out).2.1.delay ∧
    (resolve_mac_vendor st mac now out).2.1.delay ≤ 10 ∧
    0 ≤ (resolve_mac_vendor st mac now out).2.1.delay := by
  rcases resolve_mac_vendor_delay_cases st mac now out with h | ⟨_, h⟩
  · rw [h]; exact ⟨le_refl _, h10, h0⟩
  · rw [h]
    refine ⟨le_min (by linarith) h10, min_le_right _ _, le_min (by linarith) (by norm_num)⟩

/-- C8 (amended): starting from a non-negative delay of at most 10, across
every sequence of `_resolve_mac_vendor` calls the delay is monotonically
non-decreasing and never exceeds 10; moreover any single call either keeps
the delay or, only on an HTTP 429 response, sets it to `min (2*delay) 10`. -/
theorem mac_lookup_delay_bounded (st : MacState)
    (calls : List (String × ℚ × HttpOutcome))
    (h0 : 0 ≤ st.delay) (h10 : st.delay ≤ 10) :
    (st.delay ≤ (runMacLookups st calls).delay ∧
     (runMacLookups st calls).delay ≤ 10) ∧
    ∀ (mac : String) (now : ℚ) (out : HttpOutcome),
      (resolve_mac_vendor st mac now out).2.1.delay = st.delay ∨
      ((∃ body, out = HttpOutcome.status 429 body) ∧
        (resolve_mac_vendor st mac now out).2.1.delay = min (st.delay * 2) 10) := by
  refine ⟨?_, fun mac now out => resolve_mac_vendor_delay_cases st mac now out⟩
  induction calls generalizing st with
  | nil => exact ⟨le_refl _, h10⟩
  | cons c rest ih =>
    obtain ⟨mac, now, out⟩ := c
    obtain ⟨hle, hcap, hnn⟩ := resolve_mac_vendor_delay_step st mac now out h0 h10
    obtain ⟨ih1, ih2⟩ := ih _ hnn hcap
    exact ⟨le_trans hle ih1, ih2⟩

/-- C8 witness: a concrete run from delay 1 through a 429 and a 200. -/
theorem mac_lookup_delay_bounded_witness :
    ((0 : ℚ) ≤ (MacState.mk [] 0 1).delay ∧ (MacState.mk [] 0 1).delay ≤ 10) ∧
    (((MacState.mk [] 0 1).delay ≤
        (runMacLookups ⟨[], 0, 1⟩
          [("AA:BB:CC:00:00:01", 2, HttpOutcome.status 429 ""),
           ("AA:BB:CC:00:00:02", 3, HttpOutcome.status 200 "V")]).delay ∧
      (runMacLookups ⟨[], 0, 1⟩
          [("AA:BB:CC:00:00:01", 2, HttpOutcome.status 429 ""),
           ("AA:BB:CC:00:00:02", 3, HttpOutcome.status 200 "V")]).delay ≤ 10) ∧
     ∀ (mac : String) (now : ℚ) (out : HttpOutcome),
       (resolve_mac_vendor ⟨[], 0, 1⟩ mac now out).2.1.delay = (MacState.mk [] 0 1).delay ∨
       ((∃ body, out = HttpOutcome.status 429 body) ∧
         (resolve_mac_vendor ⟨[], 0, 1⟩ mac now out).2.1.delay =
           min ((MacState.mk [] 0 1).delay * 2) 10)) :=
  ⟨⟨by norm_num, by norm_num⟩,
   mac_lookup_delay_bounded ⟨[], 0, 1⟩
     [("AA:BB:CC:00:00:01", 2, HttpOutcome.status 429 ""),
      ("AA:BB:CC:00:00:02", 3, HttpOutcome.status 200 "V")]
     (by norm_num) (by norm_num)⟩

/-- C8 counterexample: the claim as stated quantifies over every initial
`mac_lookup_delay` of at most 10.0.  Constructed with delay -1 (which is at
most 10), a rate-limited lookup sets the delay to `min (-2) 10 = -2`, so the
delay strictly decreases: it is not monotonically non-decreasing. -/
theorem mac_lookup_delay_not_monotone_at_negative :
    (MacState.mk [] 0 (-1)).delay ≤ 10 ∧
    (resolve_mac_vendor ⟨[], 0, -1⟩ "AA:BB:CC:DD:EE:FF" 5
        (HttpOutcome.status 429 "")).2.1.delay < (MacState.mk [] 0 (-1)).delay := by
  have hres : resolve_mac_vendor ⟨[], 0, -1⟩ "AA:BB:CC:DD:EE:FF" 5
      (HttpOutcome.status 429 "") =
      ("Rate Limited", ⟨[(macOui "AA:BB:CC:DD:EE:FF", "Rate Limited")], 5,
        min ((-1 : ℚ) * 2) 10⟩, true) := by
    unfold resolve_mac_vendor
    rw [if_neg (by decide : ¬ (macOui "AA:BB:CC:DD:EE:FF").length ≠ 6)]
    rfl
  refine ⟨by norm_num, ?_⟩
  rw [hres]
  show min ((-1 : ℚ) * 2) 10 < -1
  rw [show ((-1 : ℚ) * 2) = -2 by norm_num,
     min_eq_left (by norm_num : (-2 : ℚ) ≤ 10)]
  norm_num

/-! ### The fetch-all-endpoints loop (`BaseSwitchModel.extract_all_data`, base.py 136-160)

`extract_all_data` builds a result dict with constant `model`, `url` and
`timestamp` entries (independent of any response; omitted here), an `error`
entry set only when authentication fails, and a `data` dict filled by the
endpoint loop.  The boolean outcome of `authenticate` and the behaviour of
`get_data` are passed in as arguments; dicts are association lists, and a
`get_data` result is truthy exactly when it is `some` of a nonempty dict.
The returned action list records the calls made: `authenticate`, then one
`fetch` per endpoint path requested. -/

inductive ExtractAction where
  | authenticate
  | fetch (path : String)
  deriving DecidableEq, Repr

structure ExtractResult (α : Type) where
  error : Option String
  data : List (String × List (String × α))

/-- `BaseSwitchModel.extract_all_data` (base.py lines 136-160). -/
def extract_all_data {α : Type} (authOk : Bool) (endpoints : List (String × String))
    (fetch : String → Option (List (String × α))) :
    ExtractResult α × List ExtractAction :=
  if authOk = false then
    ({ error := some "Authentication failed", data := [] }, [ExtractAction.authenticate])
  else
    ({ error := none,
       data := endpoints.foldl (fun acc e =>
         match fetch e.2 with
         | some d => if d.isEmpty then acc else acc ++ [(e.1, d)]
         | none => acc) [] },
     ExtractAction.authenticate :: endpoints.map (fun e => ExtractAction.fetch e.2))

/-- The appending fold of the endpoint loop collects exactly a `filterMap`. -/
theorem foldl_endpoint_collect {α : Type}
    (fetch : String → Option (List (String × α))) :
    ∀ (l : List (String × String)) (acc : List (String × List (String × α))),
      l.foldl (fun acc e =>
        match fetch e.2 with
        | some d => if d.isEmpty then acc else acc ++ [(e.1, d)]
        | none => acc) acc =
      acc ++ l.filterMap (fun e =>
        match fetch e.2 with
        | some d => if d.isEmpty then none else some (e.1, d)
        | none => none) := by
  intro l
  induction l with
  | nil => intro acc; simp
  | cons e rest ih =>
    intro acc
    rw [List.foldl_cons, List.filterMap_cons]
    cases hg : fetch e.2 with
    | none => simp only [hg]; rw [ih]
    | some d =>
      simp only [hg]
      by_cases he : d.isEmpty = true
      · simp [he, ih]
      · simp [he, ih]

/-- C1: `extract_all_data` authenticates before any endpoint fetch.  On
authentication failure the result carries `error = "Authentication failed"`,
its data dict is empty and no endpoint is requested; on success every
endpoint in the table is requested once (in order), and the data dict has
an entry under an endpoint's name exactly when that endpoint's fetch
returned a non-`None`, non-empty value. -/
theorem extract_all_data_auth_gate {α : Type} (authOk : Bool)
    (endpoints : List (String × String))
    (fetch : String → Option (List (String × α))) :
    (authOk = false →
      ((extract_all_data authOk endpoints fetch).1.error = some "Authentication failed" ∧
       (extract_all_data authOk endpoints fetch).1.data = [] ∧
       (extract_all_data authOk endpoints fetch).2 = [ExtractAction.authenticate])) ∧
    (authOk = true →
      ((extract_all_data authOk endpoints fetch).1.error = none ∧
       (extract_all_data authOk endpoints fetch).2 =
         ExtractAction.authenticate :: endpoints.map (fun e => ExtractAction.fetch e.2) ∧
       ∀ name : String,
         (∃ d, (name, d) ∈ (extract_all_data authOk endpoints fetch).1.data) ↔
         (∃ p, (name, p) ∈ endpoints ∧ ∃ d, fetch p = some d ∧ d ≠ []))) := by
  constructor
  · intro h; subst h
    exact ⟨rfl, rfl, rfl⟩
  · intro h; subst h
    refine ⟨rfl, rfl, ?_⟩
    intro name
    have hdata : (extract_all_data true endpoints fetch).1.data =
        endpoints.filterMap (fun e => match fetch e.2 with
          | some d => if d.isEmpty then none else some (e.1, d)
          | none => none) := by
      show endpoints.foldl _ [] = _
      rw [foldl_endpoint_collect]
      rfl
    rw [hdata]
    constructor
    · rintro ⟨d, hd⟩
      rw [List.mem_filterMap] at hd
      obtain ⟨⟨n, p⟩, hmem, hg⟩ := hd
      cases hf : fetch p with
      | none => rw [show (n, p).2 = p from rfl, hf] at hg; cases hg
      | some d' =>
        rw [show (n, p).2 = p from rfl, hf] at hg
        dsimp only at hg
        by_cases he : d'.isEmpty = true
        · rw [if_pos he] at hg; cases hg
        · rw [if_neg he] at hg
          simp only [Option.some.injEq, Prod.mk.injEq] at hg
          obtain ⟨h1, h2⟩ := hg
          subst h1; subst h2
          refine ⟨p, hmem, d', hf, ?_⟩
          intro hnil
          rw [hnil] at he
          exact he rfl
    · rintro ⟨p, hp, d, hf, hd⟩
      refine ⟨d, ?_⟩
      rw [List.mem_filterMap]
      refine ⟨(name, p), hp, ?_⟩
      have he : d.isEmpty = false := by
        cases d with
        | nil => exact absurd rfl hd
        | cons x xs => rfl
      simp [hf, he]

/-- C1 witness: a concrete failed and a concrete successful extraction. -/
theorem extract_all_data_auth_gate_witness :
    ((extract_all_data false [("system_info", "info.cgi")]
        (fun _ => (none : Option (List (String × Nat))))).1.error =
      some "Authentication failed" ∧
     (extract_all_data false [("system_info", "info.cgi")]
        (fun _ => (none : Option (List (String × Nat))))).1.data = [] ∧
     (extract_all_data false [("system_info", "info.cgi")]
        (fun _ => (none : Option (List (String × Nat))))).2 =
      [ExtractAction.authenticate]) ∧
    ((extract_all_data true [("system_info", "info.cgi")]
        (fun _ => some [("model", (1 : Nat))])).2 =
      [ExtractAction.authenticate, ExtractAction.fetch "info.cgi"]) :=
  ⟨(extract_all_data_auth_gate false [("system_info", "info.cgi")]
      (fun _ => (none : Option (List (String × Nat))))).1 rfl,
   ((extract_all_data_auth_gate true [("system_info", "info.cgi")]
      (fun _ => some [("model", (1 : Nat))])).2 rfl).2.1⟩

/-! ### Default mutating operations of the base adapter (base.py 184-202)

`BaseSwitchModel` defines default implementations for `create_vlan`,
`delete_vlan`, `enable_ssh` and `disable_ssh`: each prints a message to the
console and returns `False`, touching neither the session nor any adapter
field.  `base.py` defines no `save_configuration` (or `save_config`)
method at all; `save_configuration` appears only on the concrete adapters
`VMS1000800MS`, `SLSWTG124AS` and `Binardat10G080800GSM`. -/

/-- Adapter fields set up by `BaseSwitchModel.__init__` (base.py 21-38). -/
structure BaseState where
  url : String
  username : String
  password : String
  modelName : String
  macState : MacState
  deriving DecidableEq

/-- Result of a mutating operation: the returned boolean, the adapter state
after the call, the HTTP requests issued, and the console lines printed. -/
structure MutOpResult where
  success : Bool
  state : BaseState
  requests : List String
  consoleOutput : List String
  deriving DecidableEq

/-- `BaseSwitchModel.create_vlan` (base.py 184-187). -/
def base_create_vlan (st : BaseState) (vlanId : Int) (vlanName : String) : MutOpResult :=
  { success := false, state := st, requests := [],
    consoleOutput := ["VLAN creation not implemented for " ++ st.modelName] }

/-- `BaseSwitchModel.delete_vlan` (base.py 189-192). -/
def base_delete_vlan (st : BaseState) (vlanId : Int) : MutOpResult :=
  { success := false, state := st, requests := [],
    consoleOutput := ["VLAN deletion not implemented for " ++ st.modelName] }

/-- `BaseSwitchModel.enable_ssh` (base.py 194-197). -/
def base_enable_ssh (st : BaseState) : MutOpResult :=
  { success := false, state := st, requests := [],
    consoleOutput := ["SSH enable not implemented for " ++ st.modelName] }

/-- `BaseSwitchModel.disable_ssh` (base.py 199-202). -/
def base_disable_ssh (st : BaseState) : MutOpResult :=
  { success := false, state := st, requests := [],
    consoleOutput := ["SSH disable not implemented for " ++ st.modelName] }

/-- The methods defined in class `BaseSwitchModel` (base.py), in source
order. -/
def baseSwitchModelMethods : List String :=
  ["__init__", "get_model_name", "get_api_endpoints", "get_login_endpoint",
   "authenticate", "get_data", "_resolve_mac_vendor", "extract_all_data",
   "display_data", "export_data", "create_vlan", "delete_vlan",
   "enable_ssh", "disable_ssh"]

/-- The classes that define a `save_configuration` method in
`src/switch_models/` (from `def save_configuration` in each file). -/
def classesWithSaveConfiguration : List String :=
  ["VMS1000800MS", "SLSWTG124AS", "Binardat10G080800GSM"]

/-- C2 counterexample: the claim counts five default mutating operations on
`BaseSwitchModel`, but the base class defines no save-config method: only
the four VLAN/SSH defaults are present, and `save_configuration` exists
solely on concrete adapters (`SLSWTGW218AS` has none at all). -/
theorem base_no_save_config_default :
    "save_configuration" ∉ baseSwitchModelMethods ∧
    "save_config" ∉ baseSwitchModelMethods ∧
    "create_vlan" ∈ baseSwitchModelMethods ∧
    "delete_vlan" ∈ baseSwitchModelMethods ∧
    "enable_ssh" ∈ baseSwitchModelMethods ∧
    "disable_ssh" ∈ baseSwitchModelMethods ∧
    "BaseSwitchModel" ∉ classesWithSaveConfiguration ∧
    "SLSWTGW218AS" ∉ classesWithSaveConfiguration := by decide

/-- C2 (amended): the base adapter provides default no-op implementations
of exactly four mutating operations — create VLAN, delete VLAN, enable SSH,
disable SSH.  For every adapter state and every argument each default
returns `False`, issues no HTTP request, and leaves the adapter state
unchanged (it only prints a console message); saving the configuration has
no default on `BaseSwitchModel`. -/
theorem base_mutating_defaults_noop (st : BaseState) (vlanId : Int)
    (vlanName : String) :
    (base_create_vlan st vlanId vlanName).success = false ∧
    (base_create_vlan st vlanId vlanName).state = st ∧
    (base_create_vlan st vlanId vlanName).requests = [] ∧
    (base_delete_vlan st vlanId).success = false ∧
    (base_delete_vlan st vlanId).state = st ∧
    (base_delete_vlan st vlanId).requests = [] ∧
    (base_enable_ssh st).success = false ∧
    (base_enable_ssh st).state = st ∧
    (base_enable_ssh st).requests = [] ∧
    (base_disable_ssh st).success = false ∧
    (base_disable_ssh st).state = st ∧
    (base_disable_ssh st).requests = [] ∧
    "save_configuration" ∉ baseSwitchModelMethods :=
  ⟨rfl, rfl, rfl, rfl, rfl, rfl, rfl, rfl, rfl, rfl, rfl, rfl, by decide⟩

/-! ### Authentication success criteria

Each adapter decides login success differently.  The decision functions
below model the branch where the credential request completed without
exception; Python's `needle in haystack` on strings is the list-infix
relation on characters, and `.lower()` is `pyLower`. -/

/-- `SLSWTGW218AS.authenticate`'s success test (sl_swtgw218as.py line 61):
`"login.cgi" not in response.text and "login" not in response.text.lower()`. -/
def sl_swtgw218as_login_success (body : List Char) : Bool :=
  !(decide ("login.cgi".data <:+: body)) && !(decide ("login".data <:+: pyLower body))

/-- Body of the VM-S100-0800MS login POST response: parsed JSON (recording
the truthiness of `result.get('success')` and whether the key `'logout'`
is present), or a body that fails JSON parsing. -/
inductive VmLoginBody where
  | json (successTruthy : Bool) (hasLogoutKey : Bool)
  | text (body : List Char)

/-- `VMS1000800MS.authenticate`'s decision (vm_s100_0800ms.py lines 61-80)
when the POST completed without exception: on HTTP 200 and JSON it tests
`result.get('success') or 'logout' not in result`; on HTTP 200 and
non-JSON it tests `"success" in text.lower() or "login" in text.lower()`;
on any other status it fails. -/
def vm_s100_authenticate_decision (status : Nat) (r : VmLoginBody) : Bool :=
  if status = 200 then
    match r with
    | VmLoginBody.json successTruthy hasLogoutKey => successTruthy || !hasLogoutKey
    | VmLoginBody.text body =>
        decide ("success".data <:+: pyLower body) || decide ("login".data <:+: pyLower body)
  else false

/-- `SLSWTG124AS.authenticate`'s decision (sl_swtg124as.py line 57) on the
probe GET of `info.cgi`: HTTP 200 and the model string in the body. -/
def sl_swtg124as_login_success (status : Nat) (body : List Char) : Bool :=
  decide (status = 200) && decide ("SL-SWTG124AS".data <:+: body)

/-- If `"login.cgi"` occurs in a body then `"login"` occurs in its
lowercasing, since lowercasing maps characters pointwise and fixes
`"login.cgi"`. -/
theorem login_in_lower_of_loginCgi {body : List Char}
    (h : "login.cgi".data <:+: body) : "login".data <:+: pyLower body := by
  have h1 : pyLower "login.cgi".data <:+: pyLower body := List.IsInfix.map lowerChar h
  have h2 : pyLower "login.cgi".data = "login.cgi".data := by decide
  rw [h2] at h1
  exact List.IsInfix.trans (by decide : "login".data <:+: "login.cgi".data) h1

/-- C3 (amended): for the SL-SWTGW218AS adapter, when the credential POST
completes without exception, `authenticate` returns True exactly when the
response body does not contain the substring "login" case-insensitively.
(The other adapters use different criteria, see the counterexample.) -/
theorem sl_swtgw218as_login_success_iff (body : List Char) :
    sl_swtgw218as_login_success body = true ↔ ¬ ("login".data <:+: pyLower body) := by
  unfold sl_swtgw218as_login_success
  constructor
  · intro h
    simp only [Bool.and_eq_true, Bool.not_eq_true', decide_eq_false_iff_not] at h
    exact h.2
  · intro h
    have h1 : ¬ ("login.cgi".data <:+: body) :=
      fun hc => h (login_in_lower_of_loginCgi hc)
    simp [h1, h]

/-- C3 counterexample: on a 200 non-JSON response with body "login page",
`VMS1000800MS.authenticate` returns True although the body contains the
substring "login" — so the claimed criterion does not hold for every
adapter. -/
theorem vm_authenticate_true_despite_login :
    vm_s100_authenticate_decision 200 (VmLoginBody.text "login page".data) = true ∧
    ("login".data <:+: pyLower "login page".data) := by
  constructor
  · decide
  · decide

/-! ### VLAN assignment strings (`VMS1000800MS._parse_vlan_assignments`,
vm_s100_0800ms.py 291-318)

Python's `str.split(sep)` with a non-empty separator scans left to right and
cuts at each non-overlapping occurrence; `splitChars` implements this on
character lists with a fuel argument (the text length) so that it is
structurally recursive. -/

def splitChars (sep : List Char) : Nat → List Char → List Char → List (List Char)
  | _, [], cur => [cur.reverse]
  | 0, hay, cur => [cur.reverse ++ hay]
  | fuel + 1, c :: rest, cur =>
    if sep.isPrefixOf (c :: rest) then
      cur.reverse :: splitChars sep fuel ((c :: rest).drop sep.length) []
    else
      splitChars sep fuel rest (c :: cur)

/-- Python `s.split(sep)` for non-empty `sep`. -/
def pySplit (s sep : String) : List String :=
  (splitChars sep.data s.data.length s.data []).map fun l => ⟨l⟩

/-- Python `s.endswith(suf)`. -/
def strEndsWith (s suf : String) : Bool :=
  suf.data.isSuffixOf s.data

/-- Python `s[:-n]` for `n ≥ 1` (drop the last `n` characters). -/
def strDropRight (s : String) (n : Nat) : String :=
  ⟨s.data.take (s.data.length - n)⟩

/-- `VMS1000800MS._parse_vlan_assignments` (vm_s100_0800ms.py 291-318):
split on `", "`, strip each entry, and sort entries ending in `T` into the
tagged list and entries ending in `UP`, `FP` or `F` into the untagged list
when their remaining prefix is all digits. -/
def parse_vlan_assignments (vlanString : String) : List String × List String :=
  if vlanString = "" then ([], [])
  else
    (pySplit vlanString ", ").foldl (fun acc entry =>
      let entry := pyStrip entry
      if strEndsWith entry "T" then
        if pyIsDigit (strDropRight entry 1) then (acc.1 ++ [strDropRight entry 1], acc.2)
        else acc
      else if strEndsWith entry "UP" || strEndsWith entry "FP" then
        if pyIsDigit (strDropRight entry 2) then (acc.1, acc.2 ++ [strDropRight entry 2])
        else acc
      else if strEndsWith entry "F" then
        if pyIsDigit (strDropRight entry 1) then (acc.1, acc.2 ++ [strDropRight entry 1])
        else acc
      else acc) ([], [])

/-- Amended-claim classifier for one entry's contribution to the tagged
list: after stripping, an entry ending in `T` whose prefix is all digits. -/
def vlanEntryTagged (e : String) : Option String :=
  let s := pyStrip e
  if strEndsWith s "T" then
    if pyIsDigit (strDropRight s 1) then some (strDropRight s 1) else none
  else none

/-- Amended-claim classifier for one entry's contribution to the untagged
list: after stripping, an entry ending in `UP`, `FP` or (failing those) `F`
whose remaining prefix is all digits, provided it does not end in `T`. -/
def vlanEntryUntagged (e : String) : Option String :=
  let s := pyStrip e
  if strEndsWith s "T" then none
  else if strEndsWith s "UP" || strEndsWith s "FP" then
    if pyIsDigit (strDropRight s 2) then some (strDropRight s 2) else none
  else if strEndsWith s "F" then
    if pyIsDigit (strDropRight s 1) then some (strDropRight s 1) else none
  else none

/-- One step of the VLAN fold appends exactly the two classifiers' outputs. -/
theorem vlan_fold_step (acc : List String × List String) (entry : String) :
    (let entry := pyStrip entry
     if strEndsWith entry "T" then
       if pyIsDigit (strDropRight entry 1) then (acc.1 ++ [strDropRight entry 1], acc.2)
       else acc
     else if strEndsWith entry "UP" || strEndsWith entry "FP" then
       if pyIsDigit (strDropRight entry 2) then (acc.1, acc.2 ++ [strDropRight entry 2])
       else acc
     else if strEndsWith entry "F" then
       if pyIsDigit (strDropRight entry 1) then (acc.1, acc.2 ++ [strDropRight entry 1])
       else acc
     else acc) =
    (acc.1 ++ (vlanEntryTagged entry).toList, acc.2 ++ (vlanEntryUntagged entry).toList) := by
  unfold vlanEntryTagged vlanEntryUntagged
  dsimp only
  by_cases hT : strEndsWith (pyStrip entry) "T" = true
  · by_cases hd : pyIsDigit (strDropRight (pyStrip entry) 1) = true
    · simp [hT, hd]
    · simp [hT, hd]
  · by_cases hUP : (strEndsWith (pyStrip entry) "UP" || strEndsWith (pyStrip entry) "FP") = true
    · by_cases hd : pyIsDigit (strDropRight (pyStrip entry) 2) = true
      · simp [hT, hUP, hd]
      · simp [hT, hUP, hd]
    · by_cases hF : strEndsWith (pyStrip entry) "F" = true
      · by_cases hd : pyIsDigit (strDropRight (pyStrip entry) 1) = true
        · simp [hT, hUP, hF, hd]
        · simp [hT, hUP, hF, hd]
      · simp [hT, hUP, hF]

/-- The VLAN fold collects the two classifiers' outputs over all entries. -/
theorem vlan_fold_collect (entries : List String) :
    ∀ acc : List String × List String,
      entries.foldl (fun acc entry =>
        let entry := pyStrip entry
        if strEndsWith entry "T" then
          if pyIsDigit (strDropRight entry 1) then (acc.1 ++ [strDropRight entry 1], acc.2)
          else acc
        else if strEndsWith entry "UP" || strEndsWith entry "FP" then
          if pyIsDigit (strDropRight entry 2) then (acc.1, acc.2 ++ [strDropRight entry 2])
          else acc
        else if strEndsWith entry "F" then
          if pyIsDigit (strDropRight entry 1) then (acc.1, acc.2 ++ [strDropRight entry 1])
          else acc
        else acc) acc =
      (acc.1 ++ entries.filterMap vlanEntryTagged,
       acc.2 ++ entries.filterMap vlanEntryUntagged) := by
  induction entries with
  | nil => intro acc; simp
  | cons e rest ih =>
    intro acc
    rw [List.foldl_cons, vlan_fold_step, ih, List.filterMap_cons, List.filterMap_cons]
    cases ht : vlanEntryTagged e <;> cases hu : vlanEntryUntagged e <;> simp

/-- A string passing Python's `isdigit` is nonempty and all digits. -/
theorem pyIsDigit_spec {x : String} (h : pyIsDigit x = true) :
    x ≠ "" ∧ x.data.all Char.isDigit = true := by
  unfold pyIsDigit at h
  simp only [Bool.and_eq_true, Bool.not_eq_true'] at h
  refine ⟨?_, h.2⟩
  intro he
  rw [he] at h
  exact absurd h.1 (by simp [List.isEmpty])

/-- The tagged classifier only emits digit strings. -/
theorem vlanEntryTagged_isDigit {e x : String} (h : vlanEntryTagged e = some x) :
    pyIsDigit x = true := by
  unfold vlanEntryTagged at h
  dsimp only at h
  by_cases hT : strEndsWith (pyStrip e) "T" = true
  · rw [if_pos hT] at h
    by_cases hd : pyIsDigit (strDropRight (pyStrip e) 1) = true
    · rw [if_pos hd] at h
      cases h
      exact hd
    · rw [if_neg hd] at h; cases h
  · rw [if_neg hT] at h; cases h

/-- The untagged classifier only emits digit strings. -/
theorem vlanEntryUntagged_isDigit {e x : String} (h : vlanEntryUntagged e = some x) :
    pyIsDigit x = true := by
  unfold vlanEntryUntagged at h
  dsimp only at h
  by_cases hT : strEndsWith (pyStrip e) "T" = true
  · rw [if_pos hT] at h; cases h
  · rw [if_neg hT] at h
    by_cases hUP : (strEndsWith (pyStrip e) "UP" || strEndsWith (pyStrip e) "FP") = true
    · rw [if_pos hUP] at h
      by_cases hd : pyIsDigit (strDropRight (pyStrip e) 2) = true
      · rw [if_pos hd] at h
        cases h
        exact hd
      · rw [if_neg hd] at h; cases h
    · rw [if_neg hUP] at h
      by_cases hF : strEndsWith (pyStrip e) "F" = true
      · rw [if_pos hF] at h
        by_cases hd : pyIsDigit (strDropRight (pyStrip e) 1) = true
        · rw [if_pos hd] at h
          cases h
          exact hd
        · rw [if_neg hd] at h; cases h
      · rw [if_neg hF] at h; cases h

/-- C10 (amended): `_parse_vlan_assignments` splits on `", "`, strips each
entry, and collects per entry: an entry ending in `T` with an all-digits
prefix into tagged, an entry ending in `UP`, `FP` or `F` with an all-digits
prefix into untagged; every other entry is dropped.  Every output element is
a non-empty string of decimal digits, and the empty input yields two empty
lists. -/
theorem parse_vlan_assignments_spec (s : String) :
    parse_vlan_assignments s =
      ((if s = "" then [] else pySplit s ", ").filterMap vlanEntryTagged,
       (if s = "" then [] else pySplit s ", ").filterMap vlanEntryUntagged) ∧
    (∀ x ∈ (parse_vlan_assignments s).1, x ≠ "" ∧ x.data.all Char.isDigit = true) ∧
    (∀ x ∈ (parse_vlan_assignments s).2, x ≠ "" ∧ x.data.all Char.isDigit = true) := by
  have heq : parse_vlan_assignments s =
      ((if s = "" then [] else pySplit s ", ").filterMap vlanEntryTagged,
       (if s = "" then [] else pySplit s ", ").filterMap vlanEntryUntagged) := by
    by_cases hs : s = ""
    · simp [parse_vlan_assignments, hs]
    · simp only [if_neg hs]
      unfold parse_vlan_assignments
      rw [if_neg hs, vlan_fold_collect]
      simp
  refine ⟨heq, ?_, ?_⟩
  · intro x hx
    rw [heq] at hx
    simp only [List.mem_filterMap] at hx
    obtain ⟨e, _, he⟩ := hx
    exact pyIsDigit_spec (vlanEntryTagged_isDigit he)
  · intro x hx
    rw [heq] at hx
    simp only [List.mem_filterMap] at hx
    obtain ⟨e, _, he⟩ := hx
    exact pyIsDigit_spec (vlanEntryUntagged_isDigit he)

/-- C10 counterexample: the entry `"5T "` ends in a space — in none of the
suffixes `T`, `UP`, `FP`, `F` — so by the claim as stated it would be
dropped; the code strips the entry first and files `"5"` under tagged. -/
theorem parse_vlan_assignments_strip_divergence :
    parse_vlan_assignments "5T " = (["5"], []) ∧
    strEndsWith "5T " "T" = false ∧ strEndsWith "5T " "UP" = false ∧
    strEndsWith "5T " "FP" = false ∧ strEndsWith "5T " "F" = false := by
  decide

/-! ### Model registry and auto-detection (`switch_models/__init__.py`)

The registry `MODELS` maps model-name strings to adapter classes; detection
fetches `login.html` and then a list of fallback endpoints, matching known
markers against the lowercased body.  The network is an oracle from
endpoint path to `none` (exception) or status code and body. -/

inductive ModelClass where
  | VMS1000800MS
  | SLSWTG124AS
  | SLSWTGW218AS
  | Binardat10G080800GSM
  deriving DecidableEq, Repr

/-- The `MODELS` registry (switch_models/__init__.py lines 14-27). -/
def MODELS : List (String × ModelClass) :=
  [("vm-s100-0800ms", ModelClass.VMS1000800MS),
   ("vms1000800ms", ModelClass.VMS1000800MS),
   ("sl-swtg124as", ModelClass.SLSWTG124AS),
   ("slswtg124as", ModelClass.SLSWTG124AS),
   ("sl-swtgw218as", ModelClass.SLSWTGW218AS),
   ("slswtgw218as", ModelClass.SLSWTGW218AS),
   ("10g08-0800gsm", ModelClass.Binardat10G080800GSM),
   ("10G08-0800GSM", ModelClass.Binardat10G080800GSM),
   ("binardat-10g08-0800gsm", ModelClass.Binardat10G080800GSM),
   ("binardat_10g08_0800gsm", ModelClass.Binardat10G080800GSM),
   ("binardat", ModelClass.Binardat10G080800GSM),
   ("default", ModelClass.VMS1000800MS)]

/-- `get_model` (switch_models/__init__.py 29-34): look the lowercased name
up in `MODELS`, raising `ValueError` (modelled as `Except.error`) when the
name is unknown. -/
def get_model (name : String) : Except String ModelClass :=
  match MODELS.lookup (lowerStr name) with
  | some c => Except.ok c
  | none => Except.error ("Unknown model: " ++ name)

/-- `content in` markers: `any(indicator in content for indicator in ...)`. -/
def anyMarker (markers : List String) (content : List Char) : Bool :=
  markers.any fun m => decide (m.data <:+: content)

/-- The Binardat condition (lines 63 and 104): three markers jointly. -/
def binardatMarkers (content : List Char) : Bool :=
  decide ("layer 3 switch".data <:+: content) &&
  decide ("iensuegdul27c90d".data <:+: content) &&
  decide ("rc4(".data <:+: content)

/-- VM-S100-0800MS markers checked on the `login.html` body (lines 67-77). -/
def vmLoginMarkers : List String :=
  ["vm-s100-0800ms", "vms1000800ms", "login.html?ver=", "home_loginAuth",
   "cgi/set.cgi", "login-box.css", "jquery.confirmon.css",
   "jquery.toastmessage.css", "ie=emulateie10"]

/-- VM-S100-0800MS markers checked on fallback endpoints (lines 124-132). -/
def vmAltMarkers : List String :=
  ["vm-s100-0800ms", "vms1000800ms", "cgi/set.cgi", "login-box.css",
   "jquery.confirmon.css", "jquery.toastmessage.css", "ie=emulateie10"]

def swtgw218Markers : List String := ["sl-swtgw218as", "slswtgw218as"]

def swtg124Markers : List String :=
  ["sl-swtg124as", "slswtg124as", "md5.js", "vlan.cgi?page=static"]

/-- Marker checks on the lowercased `login.html` body, in source order
(lines 62-94). -/
def checkLoginContent (content : List Char) : Option String :=
  if binardatMarkers content then some "10g08-0800gsm"
  else if anyMarker vmLoginMarkers content then some "vm-s100-0800ms"
  else if anyMarker swtgw218Markers content then some "sl-swtgw218as"
  else if anyMarker swtg124Markers content then some "sl-swtg124as"
  else none

/-- Marker checks on a fallback endpoint's lowercased body, in source order
(lines 103-133); note the VM check comes last here. -/
def checkAltContent (content : List Char) : Option String :=
  if binardatMarkers content then some "10g08-0800gsm"
  else if anyMarker swtgw218Markers content then some "sl-swtgw218as"
  else if anyMarker swtg124Markers content then some "sl-swtg124as"
  else if anyMarker vmAltMarkers content then some "vm-s100-0800ms"
  else none

/-- A network oracle: endpoint path to `none` (request raised) or the
response's status code and body text. -/
def Responses : Type := String → Option (Nat × List Char)

/-- The fallback endpoints tried in order (line 97). -/
def altEndpoints : List String := ["/login.cgi", "/cgi-bin/login", "/", "/index.cgi"]

/-- The `for endpoint in [...]` loop (lines 97-135): request each endpoint,
skipping failures and non-200 responses and bodies without markers. -/
def altLoop (resp : Responses) : List String → Option String
  | [] => none
  | e :: rest =>
    match resp e with
    | some (status, text) =>
      if status = 200 then
        match checkAltContent (pyLower text) with
        | some m => some m
        | none => altLoop resp rest
      else altLoop resp rest
    | none => altLoop resp rest

/-- `detect_switch_model` (switch_models/__init__.py 40-141): fetch
`login.html` (an exception there aborts the whole detection with `None`),
match markers on a 200 body, and otherwise fall back to `altEndpoints`. -/
def detect_switch_model (resp : Responses) : Option String :=
  match resp "/login.html" with
  | none => none
  | some (status, text) =>
    if status = 200 then
      match checkLoginContent (pyLower text) with
      | some m => some m
      | none => altLoop resp altEndpoints
    else altLoop resp altEndpoints

/-- `get_model_with_detection` (switch_models/__init__.py 143-167) with
`model_name = None`: detect, then instantiate the detected model or the
registry's `default`. -/
def get_model_with_detection (resp : Responses) (modelName : Option String) :
    Except String ModelClass :=
  match modelName with
  | none =>
    match detect_switch_model resp with
    | some m => get_model m
    | none => get_model "default"
  | some n => get_model n

/-- The four strings detection can produce. -/
def detectableModels : List String :=
  ["10g08-0800gsm", "vm-s100-0800ms", "sl-swtgw218as", "sl-swtg124as"]

/-- The login-page marker check yields `none` or a detectable model name. -/
theorem checkLoginContent_cases (content : List Char) :
    checkLoginContent content = none ∨
    ∃ m, checkLoginContent content = some m ∧ m ∈ detectableModels := by
  unfold checkLoginContent
  by_cases h1 : binardatMarkers content = true
  · exact Or.inr ⟨_, by rw [if_pos h1], by decide⟩
  · rw [if_neg h1]
    by_cases h2 : anyMarker vmLoginMarkers content = true
    · exact Or.inr ⟨_, by rw [if_pos h2], by decide⟩
    · rw [if_neg h2]
      by_cases h3 : anyMarker swtgw218Markers content = true
      · exact Or.inr ⟨_, by rw [if_pos h3], by decide⟩
      · rw [if_neg h3]
        by_cases h4 : anyMarker swtg124Markers content = true
        · exact Or.inr ⟨_, by rw [if_pos h4], by decide⟩
        · rw [if_neg h4]; exact Or.inl rfl

/-- The fallback marker check yields `none` or a detectable model name. -/
theorem checkAltContent_cases (content : List Char) :
    checkAltContent content = none ∨
    ∃ m, checkAltContent content = some m ∧ m ∈ detectableModels := by
  unfold checkAltContent
  by_cases h1 : binardatMarkers content = true
  · exact Or.inr ⟨_, by rw [if_pos h1], by decide⟩
  · rw [if_neg h1]
    by_cases h2 : anyMarker swtgw218Markers content = true
    · exact Or.inr ⟨_, by rw [if_pos h2], by decide⟩
    · rw [if_neg h2]
      by_cases h3 : anyMarker swtg124Markers content = true
      · exact Or.inr ⟨_, by rw [if_pos h3], by decide⟩
      · rw [if_neg h3]
        by_cases h4 : anyMarker vmAltMarkers content = true
        · exact Or.inr ⟨_, by rw [if_pos h4], by decide⟩
        · rw [if_neg h4]; exact Or.inl rfl

/-- The fallback loop yields `none` or a detectable model name. -/
theorem altLoop_cases (resp : Responses) (es : List String) :
    altLoop resp es = none ∨
    ∃ m, altLoop resp es = some m ∧ m ∈ detectableModels := by
  induction es with
  | nil => exact Or.inl rfl
  | cons e rest ih =>
    unfold altLoop
    cases he : resp e with
    | none => exact ih
    | some sr =>
      obtain ⟨status, text⟩ := sr
      dsimp only
      by_cases hs : status = 200
      · rw [if_pos hs]
        rcases checkAltContent_cases (pyLower text) with hc | ⟨m, hc, hmem⟩
        · rw [hc]; exact ih
        · rw [hc]; exact Or.inr ⟨m, rfl, hmem⟩
      · rw [if_neg hs]; exact ih

/-- C5: detection returns `None` or one of exactly the four model strings,
each a key of the `MODELS` registry, and `get_model_with_detection` with
`model_name = None` therefore never raises `ValueError`: it resolves the
detected model, or the registry's `default` entry when detection fails. -/
theorem detect_switch_model_registry (resp : Responses) :
    (detect_switch_model resp = none ∨
      ∃ m, detect_switch_model resp = some m ∧ m ∈ detectableModels ∧
        (MODELS.lookup m).isSome = true) ∧
    ∃ c, get_model_with_detection resp none = Except.ok c := by
  have hlookup : ∀ m ∈ detectableModels, (MODELS.lookup m).isSome = true := by decide
  have hdet : detect_switch_model resp = none ∨
      ∃ m, detect_switch_model resp = some m ∧ m ∈ detectableModels := by
    unfold detect_switch_model
    cases hr : resp "/login.html" with
    | none => exact Or.inl rfl
    | some sr =>
      obtain ⟨status, text⟩ := sr
      dsimp only
      by_cases hs : status = 200
      · rw [if_pos hs]
        rcases checkLoginContent_cases (pyLower text) with hc | ⟨m, hc, hmem⟩
        · rw [hc]; exact altLoop_cases resp altEndpoints
        · rw [hc]; exact Or.inr ⟨m, rfl, hmem⟩
      · rw [if_neg hs]; exact altLoop_cases resp altEndpoints
  constructor
  · rcases hdet with h | ⟨m, h, hmem⟩
    · exact Or.inl h
    · exact Or.inr ⟨m, h, hmem, hlookup m hmem⟩
  · unfold get_model_with_detection
    rcases hdet with h | ⟨m, h, hmem⟩
    · rw [h]
      exact ⟨ModelClass.VMS1000800MS, rfl⟩
    · rw [h]
      dsimp only
      unfold get_model
      cases hm : MODELS.lookup (lowerStr m) with
      | some c => exact ⟨c, rfl⟩
      | none =>
        exfalso
        fin_cases hmem <;> exact absurd hm (by decide)

/-! ### RC4 (`Binardat10G080800GSM._rc4_encrypt`, binardat_10g08_0800gsm.py 50-90)

The Python encrypts character by character, appending `str(byte) + ',,'` to
an accumulating string.  It swaps S-box entries with three sequential XOR
assignments — which zero the entry when the two indices coincide — and the
embedding reproduces that faithfully.  The function reads no randomness:
its output depends only on `key` and `text`. -/

/-- The XOR-swap of `S[i]` and `S[j]` as three sequential XOR assignments
(lines 71-73 and 83-85). -/
def xorSwap (S : List Nat) (i j : Nat) : List Nat :=
  let S1 := S.set i (S.getD i 0 ^^^ S.getD j 0)
  let S2 := S1.set j (S1.getD i 0 ^^^ S1.getD j 0)
  S2.set i (S2.getD i 0 ^^^ S2.getD j 0)

/-- One iteration of the key-scheduling loop (lines 68-74); the state is
`(S, j, keyIndex)`. -/
def rc4KsaStep (key : List Char) (st : List Nat × Nat × Nat) (i : Nat) :
    List Nat × Nat × Nat :=
  let j := (st.2.1 + st.1.getD i 0 + (key.getD st.2.2 ' ').toNat) % 256
  (xorSwap st.1 i j, j, (st.2.2 + 1) % key.length)

/-- The scheduled S-box: 256 KSA iterations over `S = [0, ..., 255]`. -/
def rc4Ksa (key : List Char) : List Nat :=
  ((List.range 256).foldl (rc4KsaStep key) (List.range 256, 0, 0)).1

/-- The bytes produced by the pseudo-random generation loop (lines 77-88). -/
def rc4PrgaBytes (S : List Nat) (i j : Nat) : List Char → List Nat
  | [] => []
  | c :: rest =>
    let i' := (i + 1) % 256
    let j' := (j + S.getD i' 0) % 256
    let S' := xorSwap S i' j'
    let t := (S'.getD i' 0 + (S'.getD j' 0 % 256)) % 256
    (c.toNat ^^^ S'.getD t 0) :: rc4PrgaBytes S' i' j' rest

/-- The same loop accumulating `result += str(byte) + ',,'` (line 87-88). -/
def rc4PrgaGo (S : List Nat) (i j : Nat) (text : List Char) (result : String) :
    String :=
  match text with
  | [] => result
  | c :: rest =>
    let i' := (i + 1) % 256
    let j' := (j + S.getD i' 0) % 256
    let S' := xorSwap S i' j'
    let t := (S'.getD i' 0 + (S'.getD j' 0 % 256)) % 256
    rc4PrgaGo S' i' j' rest (result ++ toString (c.toNat ^^^ S'.getD t 0) ++ ",,")

/-- `Binardat10G080800GSM._rc4_encrypt` (binardat_10g08_0800gsm.py 50-90). -/
def rc4_encrypt (key text : String) : String :=
  rc4PrgaGo (rc4Ksa key.data) 0 0 text.data ""

/-- The concatenation of decimal integers each followed by `",,"`. -/
def rc4Format : List Nat → String
  | [] => ""
  | b :: bs => toString b ++ ",," ++ rc4Format bs

/-- The accumulating loop produces the formatted concatenation of the byte
sequence. -/
theorem rc4PrgaGo_eq_format (text : List Char) :
    ∀ (S : List Nat) (i j : Nat) (result : String),
      rc4PrgaGo S i j text result = result ++ rc4Format (rc4PrgaBytes S i j text) := by
  induction text with
  | nil => intro S i j result; simp [rc4PrgaGo, rc4PrgaBytes, rc4Format]
  | cons c rest ih =>
    intro S i j result
    simp only [rc4PrgaGo, rc4PrgaBytes, rc4Format]
    rw [ih]
    simp [String.append_assoc]

/-- The PRGA emits one byte per character of the text. -/
theorem rc4PrgaBytes_length (text : List Char) :
    ∀ (S : List Nat) (i j : Nat), (rc4PrgaBytes S i j text).length = text.length := by
  induction text with
  | nil => intro S i j; rfl
  | cons c rest ih =>
    intro S i j
    simp only [rc4PrgaBytes, List.length_cons]
    rw [ih]

/-- `getD _ _ 0` of a list of naturals below 256 stays below 256. -/
theorem getD_lt_of_all {S : List Nat} (h : ∀ x ∈ S, x < 256) (i : Nat) :
    S.getD i 0 < 256 := by
  rw [List.getD_eq_getElem?_getD]
  cases hg : S[i]? with
  | none => simp
  | some a => simpa using h a (List.getElem?_mem hg)

/-- XOR of two naturals below 256 stays below 256. -/
theorem xor_lt_256 {a b : Nat} (ha : a < 256) (hb : b < 256) : a ^^^ b < 256 := by
  have h256 : (256 : Nat) = 2 ^ 8 := by norm_num
  rw [h256] at ha hb ⊢
  exact Nat.xor_lt_two_pow ha hb

/-- Setting an entry to a value below 256 preserves the S-box bound. -/
theorem set_lt_of_all {S : List Nat} (h : ∀ x ∈ S, x < 256) {v : Nat}
    (hv : v < 256) (i : Nat) : ∀ x ∈ S.set i v, x < 256 := by
  intro x hx
  rcases List.mem_or_eq_of_mem_set hx with hmem | rfl
  · exact h x hmem
  · exact hv

/-- The XOR-swap preserves the S-box bound. -/
theorem xorSwap_lt_of_all {S : List Nat} (h : ∀ x ∈ S, x < 256) (i j : Nat) :
    ∀ x ∈ xorSwap S i j, x < 256 := by
  unfold xorSwap
  have h1 := set_lt_of_all h (xor_lt_256 (getD_lt_of_all h i) (getD_lt_of_all h j)) i
  have h2 := set_lt_of_all h1 (xor_lt_256 (getD_lt_of_all h1 i) (getD_lt_of_all h1 j)) j
  exact set_lt_of_all h2 (xor_lt_256 (getD_lt_of_all h2 i) (getD_lt_of_all h2 j)) i

/-- The KSA fold preserves the S-box bound. -/
theorem ksa_fold_lt (key : List Char) (l : List Nat) :
    ∀ st : List Nat × Nat × Nat, (∀ x ∈ st.1, x < 256) →
      ∀ x ∈ (l.foldl (rc4KsaStep key) st).1, x < 256 := by
  induction l with
  | nil => intro st h; exact h
  | cons i rest ih =>
    intro st h
    rw [List.foldl_cons]
    exact ih _ (xorSwap_lt_of_all h i _)

set_option maxRecDepth 4096 in
/-- The scheduled S-box consists of naturals below 256. -/
theorem rc4Ksa_lt (key : List Char) : ∀ x ∈ rc4Ksa key, x < 256 := by
  unfold rc4Ksa
  refine ksa_fold_lt key (List.range 256) (List.range 256, 0, 0) ?_
  intro x hx
  exact List.mem_range.mp hx

/-- When the S-box is bounded and every character has a code point below
256, every PRGA output byte is below 256. -/
theorem rc4PrgaBytes_lt (text : List Char) :
    ∀ (S : List Nat) (i j : Nat), (∀ x ∈ S, x < 256) →
      (∀ c ∈ text, c.toNat < 256) →
      ∀ b ∈ rc4PrgaBytes S i j text, b < 256 := by
  induction text with
  | nil => intro S i j _ _ b hb; cases hb
  | cons c rest ih =>
    intro S i j hS htext b hb
    simp only [rc4PrgaBytes] at hb
    rcases List.mem_cons.mp hb with rfl | hmem
    · exact xor_lt_256 (htext c (List.mem_cons_self c rest))
        (getD_lt_of_all (xorSwap_lt_of_all hS _ _) _)
    · exact ih _ _ _ (xorSwap_lt_of_all hS _ _)
        (fun c' hc' => htext c' (List.mem_cons_of_mem c hc')) b hmem

/-- C9: `_rc4_encrypt` is a pure deterministic function of its arguments —
equal keys and texts give equal output, no salt, nonce or IV being read —
and for a non-empty key its output is the concatenation of exactly
`len(text)` decimal integers each followed by `",,"`, every integer lying
below 256 whenever every character of the text has a code point below 256. -/
theorem rc4_encrypt_deterministic_shape (key text key' text' : String)
    (hkey : 0 < key.length) (hk : key' = key) (ht : text' = text) :
    rc4_encrypt key' text' = rc4_encrypt key text ∧
    ∃ bs : List Nat, bs.length = text.length ∧
      rc4_encrypt key text = rc4Format bs ∧
      ((∀ c ∈ text.data, c.toNat < 256) → ∀ b ∈ bs, b < 256) := by
  have hdet : rc4_encrypt key' text' = rc4_encrypt key text := by rw [hk, ht]
  refine ⟨hdet, rc4PrgaBytes (rc4Ksa key.data) 0 0 text.data, ?_, ?_, ?_⟩
  · exact rc4PrgaBytes_length text.data _ 0 0
  · unfold rc4_encrypt
    rw [rc4PrgaGo_eq_format, String.empty_append]
  · intro htext
    exact rc4PrgaBytes_lt text.data _ 0 0 (rc4Ksa_lt key.data) htext

/-- C9 witness: the adapter's own RC4 key and the text "admin". -/
theorem rc4_encrypt_deterministic_shape_witness :
    0 < "iensuegdul27c90d".length ∧
    (rc4_encrypt "iensuegdul27c90d" "admin" = rc4_encrypt "iensuegdul27c90d" "admin" ∧
     ∃ bs : List Nat, bs.length = "admin".length ∧
       rc4_encrypt "iensuegdul27c90d" "admin" = rc4Format bs ∧
       ((∀ c ∈ "admin".data, c.toNat < 256) → ∀ b ∈ bs, b < 256)) :=
  ⟨by decide,
   rc4_encrypt_deterministic_shape "iensuegdul27c90d" "admin"
     "iensuegdul27c90d" "admin" (by decide) rfl rfl⟩

/-! ### MD5 (RFC 1321)

`hashlib.md5(...).hexdigest()`, used by the SL-SWTG124AS and SL-SWTGW218AS
login handshakes, is the RFC 1321 digest rendered as lowercase hex.  The
implementation below works on byte lists with `Nat` arithmetic reduced
modulo `2^32`. -/

def M32 : Nat := 4294967296

/-- Bitwise complement on 32-bit words. -/
def not32 (a : Nat) : Nat := a ^^^ 4294967295

/-- Left-rotation of a 32-bit word. -/
def rotl32 (x n : Nat) : Nat := ((x <<< n) % M32) ||| (x >>> (32 - n))

/-- The 64 MD5 sine-derived constants `floor(abs(sin(i+1)) * 2^32)`. -/
def md5K : List Nat :=
  [3614090360, 3905402710, 606105819, 3250441966, 4118548399, 1200080426,
   2821735955, 4249261313, 1770035416, 2336552879, 4294925233, 2304563134,
   1804603682, 4254626195, 2792965006, 1236535329, 4129170786, 3225465664,
   643717713, 3921069994, 3593408605, 38016083, 3634488961, 3889429448,
   568446438, 3275163606, 4107603335, 1163531501, 2850285829, 4243563512,
   1735328473, 2368359562, 4294588738, 2272392833, 1839030562, 4259657740,
   2763975236, 1272893353, 4139469664, 3200236656, 681279174, 3936430074,
   3572445317, 76029189, 3654602809, 3873151461, 530742520, 3299628645,
   4096336452, 1126891415, 2878612391, 4237533241, 1700485571, 2399980690,
   4293915773, 2240044497, 1873313359, 4264355552, 2734768916, 1309151649,
   4149444226, 3174756917, 718787259, 3951481745]

/-- The 64 per-round left-rotation amounts. -/
def md5S : List Nat :=
  [7, 12, 17, 22, 7, 12, 17, 22, 7, 12, 17, 22, 7, 12, 17, 22,
   5, 9, 14, 20, 5, 9, 14, 20, 5, 9, 14, 20, 5, 9, 14, 20,
   4, 11, 16, 23, 4, 11, 16, 23, 4, 11, 16, 23, 4, 11, 16, 23,
   6, 10, 15, 21, 6, 10, 15, 21, 6, 10, 15, 21, 6, 10, 15, 21]

/-- Round function and message-word index for iteration `i`. -/
def md5FG (b c d i : Nat) : Nat × Nat :=
  if i < 16 then ((b &&& c) ||| (not32 b &&& d), i)
  else if i < 32 then ((d &&& b) ||| (not32 d &&& c), (5 * i + 1) % 16)
  else if i < 48 then (b ^^^ c ^^^ d, (3 * i + 5) % 16)
  else (c ^^^ (b ||| not32 d), (7 * i) % 16)

/-- One of the 64 compression iterations. -/
def md5Round (M : List Nat) (st : Nat × Nat × Nat × Nat) (i : Nat) :
    Nat × Nat × Nat × Nat :=
  let (a, b, c, d) := st
  let fg := md5FG b c d i
  let f := (((fg.1 + a) % M32 + md5K.getD i 0) % M32 + M.getD fg.2 0) % M32
  (d, (b + rotl32 f (md5S.getD i 0)) % M32, b, c)

/-- The sixteen little-endian 32-bit words of a 64-byte chunk. -/
def chunkWords (chunk : List Nat) : List Nat :=
  (List.range 16).map fun j =>
    chunk.getD (4 * j) 0 + 256 * chunk.getD (4 * j + 1) 0 +
      65536 * chunk.getD (4 * j + 2) 0 + 16777216 * chunk.getD (4 * j + 3) 0

/-- Compress one 64-byte chunk into the running state. -/
def md5ProcessChunk (h : Nat × Nat × Nat × Nat) (chunk : List Nat) :
    Nat × Nat × Nat × Nat :=
  let M := chunkWords chunk
  let r := (List.range 64).foldl (md5Round M) h
  ((h.1 + r.1) % M32, (h.2.1 + r.2.1) % M32,
   (h.2.2.1 + r.2.2.1) % M32, (h.2.2.2 + r.2.2.2) % M32)

/-- MD5 padding: `0x80`, zeros to 56 mod 64, and the bit length as a
little-endian 64-bit integer. -/
def md5Pad (msg : List Nat) : List Nat :=
  let ml := msg.length * 8
  let zeros := (120 - (msg.length + 1) % 64) % 64
  msg ++ [128] ++ List.replicate zeros 0 ++
    (List.range 8).map fun k => (ml >>> (8 * k)) % 256

/-- Split a (padded) byte list into 64-byte chunks. -/
def toChunks (l : List Nat) : List (List Nat) :=
  (List.range (l.length / 64)).map fun i => (l.drop (64 * i)).take 64

/-- The four bytes of a 32-bit word, little-endian. -/
def wordLEBytes (w : Nat) : List Nat :=
  [w % 256, (w >>> 8) % 256, (w >>> 16) % 256, (w >>> 24) % 256]

/-- The 16-byte MD5 digest of a byte list. -/
def md5Digest (msg : List Nat) : List Nat :=
  let h := (toChunks (md5Pad msg)).foldl md5ProcessChunk
    (1732584193, 4023233417, 2562383102, 271733878)
  wordLEBytes h.1 ++ wordLEBytes h.2.1 ++ wordLEBytes h.2.2.1 ++ wordLEBytes h.2.2.2

def hexDigitChars : List Char := "0123456789abcdef".data

/-- The lowercase hex digit of a nibble. -/
def hexNibble (n : Nat) : Char := hexDigitChars.getD (n % 16) '0'

/-- The two lowercase hex digits of a byte. -/
def byteHexChars (b : Nat) : List Char := [hexNibble (b / 16), hexNibble b]

/-- `hashlib.md5(msg).hexdigest()`: the digest as lowercase hex. -/
def md5Hex (msg : List Nat) : String :=
  ⟨(md5Digest msg).flatMap byteHexChars⟩

/-- Python `str.encode()` (UTF-8) of one character. -/
def utf8EncodeChar (c : Char) : List Nat :=
  let n := c.toNat
  if n < 128 then [n]
  else if n < 2048 then [192 ||| (n >>> 6), 128 ||| (n &&& 63)]
  else if n < 65536 then
    [224 ||| (n >>> 12), 128 ||| ((n >>> 6) &&& 63), 128 ||| (n &&& 63)]
  else
    [240 ||| (n >>> 18), 128 ||| ((n >>> 12) &&& 63),
     128 ||| ((n >>> 6) &&& 63), 128 ||| (n &&& 63)]

/-- Python `str.encode()` (UTF-8) of a string. -/
def utf8Encode (s : String) : List Nat :=
  s.data.flatMap utf8EncodeChar

/-- Every hex nibble character is one of the sixteen lowercase hex digits. -/
theorem hexNibble_mem (n : Nat) : hexNibble n ∈ hexDigitChars := by
  unfold hexNibble
  rw [List.getD_eq_getElem?_getD]
  cases hg : hexDigitChars[n % 16]? with
  | none => show '0' ∈ hexDigitChars; decide
  | some a => simpa using List.getElem?_mem hg

/-- The MD5 digest always has 16 bytes. -/
theorem md5Digest_length (msg : List Nat) : (md5Digest msg).length = 16 := by
  unfold md5Digest wordLEBytes
  simp

/-- A `flatMap` by `byteHexChars` doubles the length. -/
theorem flatMap_byteHexChars_length (l : List Nat) :
    (l.flatMap byteHexChars).length = 2 * l.length := by
  induction l with
  | nil => rfl
  | cons b bs ih =>
    rw [List.flatMap_cons, List.length_append, ih]
    show 2 + 2 * bs.length = 2 * (bs.length + 1)
    omega

/-- The hexdigest is 32 characters, all lowercase hex digits. -/
theorem md5Hex_shape (msg : List Nat) :
    (md5Hex msg).length = 32 ∧ ∀ c ∈ (md5Hex msg).data, c ∈ hexDigitChars := by
  constructor
  · show ((md5Digest msg).flatMap byteHexChars).length = 32
    rw [flatMap_byteHexChars_length, md5Digest_length]
  · intro c hc
    have hc' : c ∈ (md5Digest msg).flatMap byteHexChars := hc
    rw [List.mem_flatMap] at hc'
    obtain ⟨b, _, hb⟩ := hc'
    rcases List.mem_cons.mp hb with rfl | hb'
    · exact hexNibble_mem _
    · rcases List.mem_cons.mp hb' with rfl | hb''
      · exact hexNibble_mem _
      · cases hb''

/-! ### MD5-cookie login handshakes (sl_swtgw218as.py 42-70, sl_swtg124as.py 42-66)

Both adapters compute `hashlib.md5((username + password).encode()).hexdigest()`,
set it as the session cookie `admin`, and only then issue the request whose
response decides login success (the credential POST for SL-SWTGW218AS, the
probe GET of `info.cgi` for SL-SWTG124AS).  The action lists record those
steps in program order. -/

inductive AuthAction where
  | setCookie (name value : String)
  | postForm (url : String) (data : List (String × String))
  | getReq (url : String)
  deriving DecidableEq, Repr

/-- `SLSWTGW218AS.authenticate` (sl_swtgw218as.py 42-70): cookie, then the
form POST whose response text decides success. -/
def sl_swtgw218as_authenticate_actions (url username password : String) :
    List AuthAction :=
  [AuthAction.setCookie "admin" (md5Hex (utf8Encode (username ++ password))),
   AuthAction.postForm (url ++ "/login.cgi")
     [("username", username), ("password", password),
      ("Response", md5Hex (utf8Encode (username ++ password)))]]

/-- `SLSWTG124AS.authenticate` (sl_swtg124as.py 42-66): cookie, then the
probe GET of `info.cgi` whose response decides success. -/
def sl_swtg124as_authenticate_actions (url username password : String) :
    List AuthAction :=
  [AuthAction.setCookie "admin" (md5Hex (utf8Encode (username ++ password))),
   AuthAction.getReq (url ++ "/info.cgi")]

/-- C4: in both adapters' handshakes a session cookie named `admin` is set
to the lowercase hexadecimal MD5 digest of `username ++ password` (in that
order), and only afterwards is the success-deciding request sent: the
cookie is the first action, the deciding request the second, and the digest
is 32 lowercase hex characters. -/
theorem md5_cookie_handshake (url username password : String) :
    ∃ h : String,
      h = md5Hex (utf8Encode (username ++ password)) ∧
      sl_swtgw218as_authenticate_actions url username password =
        [AuthAction.setCookie "admin" h,
         AuthAction.postForm (url ++ "/login.cgi")
           [("username", username), ("password", password), ("Response", h)]] ∧
      sl_swtg124as_authenticate_actions url username password =
        [AuthAction.setCookie "admin" h, AuthAction.getReq (url ++ "/info.cgi")] ∧
      h.length = 32 ∧ (∀ c ∈ h.data, c ∈ hexDigitChars) :=
  ⟨md5Hex (utf8Encode (username ++ password)), rfl, rfl, rfl,
   (md5Hex_shape _).1, (md5Hex_shape _).2⟩

end ChineseSwitchParser
